import Mathlib

/-!
Verification development for the coding-command-center backend
(`src/server.js`).  The JavaScript handlers are shallowly embedded as pure
Lean functions; external effects (file reads, subprocess results, child
process events) are passed in explicitly, mirroring the exact control flow
of the source.
-/

namespace CCC

/-! ## JavaScript string primitives -/

/-- Whitespace as used by JS `String.prototype.trim` and the regex class
`\s` (restricted to the ASCII range, which is all that the parsed formats
contain). -/
def jsWhitespace (c : Char) : Bool :=
  c == ' ' || c == '\t' || c == '\n' || c == '\r' || c == '\x0b' || c == '\x0c'

/-- JS string trim. -/
def jsTrim (s : String) : String :=
  ⟨((s.data.dropWhile jsWhitespace).reverse.dropWhile jsWhitespace).reverse⟩

/-- JS character indexing: undefined (here `none`) when out of range. -/
def charAt (s : String) (i : Nat) : Option Char :=
  s.data.get? i

def splitNlAux : List Char → List Char → List String
  | [], acc => [⟨acc.reverse⟩]
  | c :: rest, acc =>
    if c == '\n' then ⟨acc.reverse⟩ :: splitNlAux rest []
    else splitNlAux rest (c :: acc)

/-- JS string split on the newline character: the segments between
newlines, empty ones included. -/
def splitNl (s : String) : List String :=
  splitNlAux s.data []

/-- JS truthiness for an optional string: null and the empty string are
falsy. -/
def jsTruthyStr : Option String → Bool
  | none => false
  | some s => !(s == "")

/-! ## Endpoint detector (the regex in `checkForUrl`, server.js:282)

The source regex is
`/(https?:\/\/[^\s]+|localhost:[0-9]+|127\.0\.0\.1:[0-9]+)/`.
JS semantics: positions are tried left to right; at a position the three
alternatives are tried in order; `[^\s]+` and `[0-9]+` are greedy and
nothing follows them, so no backtracking into the quantifier occurs. -/

/-- If `pat` starts `l`, return the remainder. -/
def dropExact (pat l : List Char) : Option (List Char) :=
  match pat, l with
  | [], l => some l
  | _ :: _, [] => none
  | p :: ps, c :: cs => if p == c then dropExact ps cs else none

/-- Match `://[^\s]+` against `r`, returning the full matched text with
the already-consumed scheme characters `pre` prepended. -/
def matchSchemeRest (pre r : List Char) : Option (List Char) :=
  match dropExact [':', '/', '/'] r with
  | none => none
  | some r3 =>
    let run := r3.takeWhile (fun c => !jsWhitespace c)
    if run.isEmpty then none else some (pre ++ [':', '/', '/'] ++ run)

/-- First alternative `https?:\/\/[^\s]+` anchored at the start of `l`. -/
def matchHttpAlt (l : List Char) : Option (List Char) :=
  match dropExact ['h', 't', 't', 'p'] l with
  | none => none
  | some r =>
    match r with
    | 's' :: r2 =>
      (matchSchemeRest ['h', 't', 't', 'p', 's'] r2).orElse
        (fun _ => matchSchemeRest ['h', 't', 't', 'p'] r)
    | _ => matchSchemeRest ['h', 't', 't', 'p'] r

/-- A literal keyword followed by `[0-9]+`, anchored at the start of `l`. -/
def matchHostPort (key l : List Char) : Option (List Char) :=
  match dropExact key l with
  | none => none
  | some r =>
    let ds := r.takeWhile Char.isDigit
    if ds.isEmpty then none else some (key ++ ds)

/-- The three regex alternatives, in source order, anchored at `l`. -/
def matchAnyAlt (l : List Char) : Option (List Char) :=
  (matchHttpAlt l).orElse fun _ =>
    (matchHostPort "localhost:".data l).orElse fun _ =>
      matchHostPort "127.0.0.1:".data l

/-- Leftmost match: try every start position left to right. -/
def findUrlAux : List Char → Option (List Char)
  | [] => none
  | c :: rest =>
    match matchAnyAlt (c :: rest) with
    | some m => some m
    | none => findUrlAux rest

/-- The regex match of server.js:282, returning the matched substring. -/
def detectUrl (text : String) : Option String :=
  (findUrlAux text.data).map (fun l => ⟨l⟩)

/-- Bare matched forms get an `http://` prepended — server.js:284 tests
whether the match starts with the four characters `http`. -/
def normalizeUrl (u : String) : String :=
  if ['h', 't', 't', 'p'].isPrefixOf u.data then u else "http://" ++ u

/-- The update of the closure variable `url` performed by `checkForUrl`
(server.js:278-288) on one output chunk: first match wins. -/
def checkForUrl (url : Option String) (text : String) : Option String :=
  match url with
  | some u => some u
  | none => (detectUrl text).map normalizeUrl

/-! ## Process supervisor state machine (server.js:264-319) -/

/-- Per-child closure state of the `/api/spawn-command` handler:
the accumulated `output` string and the `url` variable. -/
structure ProcState where
  output : String
  url : Option String
deriving DecidableEq

/-- Supervisor state: `procs` are the alive spawned children (with their
closure state); `registry` is the global `runningProcesses` object, which
maps a pid to its detected url (entries are created only upon detection,
server.js:285, and deleted on close, server.js:294). -/
structure SupState where
  procs : List (Nat × ProcState)
  registry : List (Nat × String)
deriving DecidableEq

/-- JS object property read (`none` plays undefined). -/
def lookupA {α : Type} : List (Nat × α) → Nat → Option α
  | [], _ => none
  | (k', v) :: tl, k => if k == k' then some v else lookupA tl k

/-- JS object property write: replaces any previous binding of the key. -/
def setA {α : Type} (l : List (Nat × α)) (k : Nat) (v : α) : List (Nat × α) :=
  (k, v) :: l.filter (fun p => !(p.1 == k))

/-- JS property deletion on an object. -/
def delA {α : Type} (l : List (Nat × α)) (k : Nat) : List (Nat × α) :=
  l.filter (fun p => !(p.1 == k))

/-- Events delivered to the supervisor for a spawned child. -/
inductive SupEvent
  | spawn (pid : Nat)
  | data (pid : Nat) (chunk : String)
  | close (pid : Nat)

/-- One supervisor transition.  `spawn` creates the closure state
(server.js:266-297); `data` runs `checkForUrl` on the chunk, writing the
registry exactly when `url` transitions from unset to set
(server.js:278-291); `close` deletes the registry entry and ends the
child (server.js:293-295). -/
def supStep (s : SupState) : SupEvent → SupState
  | .spawn pid => { s with procs := setA s.procs pid ⟨"", none⟩ }
  | .data pid chunk =>
    match lookupA s.procs pid with
    | none => s
    | some st =>
      match st.url with
      | some u =>
        { s with procs := setA s.procs pid ⟨st.output ++ chunk, some u⟩ }
      | none =>
        match (detectUrl chunk).map normalizeUrl with
        | none =>
          { s with procs := setA s.procs pid ⟨st.output ++ chunk, none⟩ }
        | some u =>
          { procs := setA s.procs pid ⟨st.output ++ chunk, some u⟩,
            registry := setA s.registry pid u }
  | .close pid =>
    { procs := delA s.procs pid, registry := delA s.registry pid }

/-- The empty supervisor (server startup). -/
def supInit : SupState := ⟨[], []⟩

/-- Run a list of events from the empty supervisor. -/
def supRun (events : List SupEvent) : SupState :=
  events.foldl supStep supInit

/-- Handler `GET /api/process-url/:pid` (server.js:300-308): answers the
stored url when an entry exists and its url is truthy, else `null`. -/
def getEndpoint (s : SupState) (pid : Nat) : Option String :=
  match lookupA s.registry pid with
  | some u => if u = "" then none else some u
  | none => none

/-- Handler `POST /api/kill-process` (server.js:310-319): the kill call
succeeds exactly when the operating-system process is alive (otherwise it
throws and a 500 error is returned).  Within the modelled universe the
alive processes are exactly the spawned, not-yet-closed children. -/
def killSucceeds (s : SupState) (pid : Nat) : Bool :=
  (lookupA s.procs pid).isSome

/-! ## JS number parsing -/

def digitsToNat (ds : List Char) : Nat :=
  ds.foldl (fun a c => a * 10 + (c.toNat - '0'.toNat)) 0

/-- JS parseInt in radix 10: skip leading whitespace, optional sign,
then the maximal run of decimal digits; `NaN` (here `none`) when that run
is empty. -/
def jsParseInt (s : String) : Option Int :=
  let l := s.data.dropWhile jsWhitespace
  match l with
  | '-' :: r =>
    let ds := r.takeWhile Char.isDigit
    if ds.isEmpty then none else some (-(digitsToNat ds : Int))
  | '+' :: r =>
    let ds := r.takeWhile Char.isDigit
    if ds.isEmpty then none else some (digitsToNat ds : Int)
  | _ =>
    let ds := l.takeWhile Char.isDigit
    if ds.isEmpty then none else some (digitsToNat ds : Int)

/-- JS parseInt followed by the or-zero idiom of server.js:211 and 220:
both NaN and 0 collapse to 0. -/
def jsToInt0 (s : String) : Int :=
  match jsParseInt s with
  | none => 0
  | some n => n

/-! ## Git metadata parsing (server.js:140-162) -/

/-- The branch-pointer marker literal of server.js:143. -/
def refHeadsMarker : List Char := "ref: refs/heads/".data

/-- JS replace with the empty replacement: remove the first occurrence
of `pat` (the string is returned unchanged when `pat` does not occur). -/
def replaceFirstAux (pat : List Char) : List Char → List Char
  | [] => []
  | c :: rest =>
    if pat.isPrefixOf (c :: rest) then (c :: rest).drop pat.length
    else c :: replaceFirstAux pat rest

/-- HEAD-file parsing, server.js:142-148: trim the content; when it
starts with `ref: refs/heads/` the branch is the content with that
marker removed, otherwise the trimmed content itself (detached HEAD). -/
def parseHead (content : String) : String :=
  let h := (jsTrim content).data
  if refHeadsMarker.isPrefixOf h then ⟨replaceFirstAux refHeadsMarker h⟩
  else ⟨h⟩

/-- The url-entry key literal of server.js:157. -/
def urlKey : List Char := "url = ".data

/-- The config scan loop of server.js:152-162: once a trimmed line equals
`[remote "origin"]` the flag is set (and never reset); the first
subsequent trimmed line starting with `url = ` yields the remote url. -/
def parseConfigAux : List String → Bool → Option String
  | [], _ => none
  | line :: rest, inOrigin =>
    let t := (jsTrim line).data
    if t = "[remote \"origin\"]".data then parseConfigAux rest true
    else if inOrigin && urlKey.isPrefixOf t then some ⟨replaceFirstAux urlKey t⟩
    else parseConfigAux rest inOrigin

def parseConfig (config : String) : Option String :=
  parseConfigAux (splitNl config) false

/-! ## Git status parsing (server.js:170-198) -/

/-- The three path lists built by the status parse loop. -/
structure StatusSets where
  modified : List String
  staged : List String
  untracked : List String
deriving DecidableEq

/-- The path part of a status line (drop 3 characters, then trim),
server.js:182. -/
def linePath (line : String) : String :=
  jsTrim ⟨line.data.drop 3⟩

/-- The body of the status parse loop, server.js:180-195, on one line.
`charAt line 0` / `charAt line 1` are `indexStatus[0]` / `indexStatus[1]`
(with `none` playing `undefined`, which compares unequal to every
character). -/
def statusStep (acc : StatusSets) (line : String) : StatusSets :=
  let c0 := charAt line 0
  let c1 := charAt line 1
  let p := linePath line
  let acc1 :=
    if c0 == some '?' || c0 == some 'A' then
      { acc with untracked := acc.untracked ++ [p] }
    else if !(c0 == some ' ') then
      { acc with staged := acc.staged ++ [p] }
    else acc
  if c1 == some 'M' || c1 == some 'D' then
    { acc1 with modified := acc1.modified ++ [p] }
  else if !(c0 == some ' ') && !(c0 == some '?') then
    { acc1 with modified := acc1.modified ++ [p] }
  else acc1

/-- The line list of the status loop: trim the whole output, split on
newlines, keep truthy (non-empty) lines — server.js:179. -/
def statusLines (output : String) : List String :=
  (splitNl (jsTrim output)).filter (fun l => !(l == ""))

def parseStatus (output : String) : StatusSets :=
  (statusLines output).foldl statusStep ⟨[], [], []⟩

/-! ## The git snapshot computation (`GET /api/git-status`, server.js:120-238)

All external effects are inputs: `Except.error ()` stands for the throw
of the corresponding `readFileSync` / `execSync` call. -/

structure GitEnv where
  gitDirExists : Bool
  headContent : Except Unit String
  configContent : Except Unit String
  statusOutput : Except Unit String
  fetchResult : Except Unit Unit
  revListHeadToOrigin : Except Unit String
  revListOriginToHead : Except Unit String

/-- The JSON body answered by the handler. -/
structure GitSnapshot where
  branch : String
  ahead : Int
  behind : Int
  modified : List String
  staged : List String
  untracked : List String
  is_dirty : Bool
  remote_url : Option String
deriving DecidableEq

/-- The no-repository response, server.js:127-138. -/
def defaultSnapshot : GitSnapshot :=
  { branch := "", ahead := 0, behind := 0, modified := [], staged := [],
    untracked := [], is_dirty := false, remote_url := none }

/-- The `branch` variable after server.js:140-148 (`null` on a failed
read). -/
def branchOf (env : GitEnv) : Option String :=
  match env.headContent with
  | .ok c => some (parseHead c)
  | .error _ => none

/-- The `remoteUrl` variable after server.js:150-162. -/
def remoteUrlOf (env : GitEnv) : Option String :=
  match env.configContent with
  | .ok c => parseConfig c
  | .error _ => none

/-- The three path lists after server.js:170-198 (a failed status command
leaves them empty). -/
def statusSetsOf (env : GitEnv) : StatusSets :=
  match env.statusOutput with
  | .ok out => parseStatus out
  | .error _ => ⟨[], [], []⟩

/-- The divergence block, server.js:200-223, as `(ahead, behind)`.
Attempted only when `remoteUrl` is truthy; a failed fetch skips both
queries; each query has its own try/catch, so a failure leaves that one
count at 0.  Note that the local variable names in the source are swapped: the
`HEAD..origin/branch` count is stored into `behind` (server.js:206-211)
and the `origin/branch..HEAD` count into `ahead` (server.js:214-220),
which is the conventional assignment. -/
def divergenceOf (env : GitEnv) : Int × Int :=
  if jsTruthyStr (remoteUrlOf env) then
    match env.fetchResult with
    | .error _ => (0, 0)
    | .ok _ =>
      let behind :=
        match env.revListHeadToOrigin with
        | .ok out => jsToInt0 (jsTrim out)
        | .error _ => 0
      let ahead :=
        match env.revListOriginToHead with
        | .ok out => jsToInt0 (jsTrim out)
        | .error _ => 0
      (ahead, behind)
  else (0, 0)

/-- Fallback of server.js:229: a null or empty branch becomes `main`. -/
def jsOrMain : Option String → String
  | none => "main"
  | some s => if s = "" then "main" else s

/-- The whole handler, server.js:120-238.  Total: every failure path of
the source is caught, so the embedding is a plain function. -/
def computeSnapshot (env : GitEnv) : GitSnapshot :=
  if !env.gitDirExists then defaultSnapshot
  else
    let sets := statusSetsOf env
    let d := divergenceOf env
    { branch := jsOrMain (branchOf env),
      ahead := d.1,
      behind := d.2,
      modified := sets.modified,
      staged := sets.staged,
      untracked := sets.untracked,
      is_dirty := !sets.modified.isEmpty || !sets.staged.isEmpty
        || !sets.untracked.isEmpty,
      remote_url := remoteUrlOf env }

/-! ## The synchronous command runner (`POST /api/run-command`,
server.js:240-262) -/

/-- A stream chunk delivered while the command runs. -/
inductive RunEvent
  | out (chunk : String)
  | err (chunk : String)

/-- How the spawned child ends: a `close` event with its exit code, or an
`error` event (the process could not be started). -/
inductive RunEnd
  | close (code : Int)
  | errorStart (msg : String)

/-- The HTTP answer of the handler: status code plus JSON body. -/
structure RunResponse where
  status : Nat
  stdout : String
  stderr : String
  exit_code : Int
deriving DecidableEq

/-- The `stdout += data` accumulation, server.js:252. -/
def collectStdout (evs : List RunEvent) : String :=
  evs.foldl (fun a e => match e with | .out c => a ++ c | .err _ => a) ""

/-- The `stderr += data` accumulation, server.js:253. -/
def collectStderr (evs : List RunEvent) : String :=
  evs.foldl (fun a e => match e with | .out _ => a | .err c => a ++ c) ""

/-- The handler answer, server.js:255-261: a `close` is a 200 with the
captured streams and the exit code (whatever it is); a start failure is a
500 with empty stdout and the error message. -/
def runCommandHandler (evs : List RunEvent) (e : RunEnd) : RunResponse :=
  match e with
  | .close code => ⟨200, collectStdout evs, collectStderr evs, code⟩
  | .errorStart msg => ⟨500, "", msg, -1⟩

/-! ## Helper lemmas -/

theorem strMk_data (s : String) : (⟨s.data⟩ : String) = s := by
  cases s
  rfl

theorem lookup_filter_ne {α : Type} (l : List (Nat × α)) (k : Nat) :
    lookupA (l.filter (fun p => !(p.1 == k))) k = none := by
  induction l with
  | nil => rfl
  | cons p tl ih =>
    obtain ⟨k', v⟩ := p
    by_cases h : k' = k
    · simpa [List.filter_cons, h] using ih
    · simpa [List.filter_cons, h, lookupA, Ne.symm h] using ih

theorem lookup_delA {α : Type} (l : List (Nat × α)) (k : Nat) :
    lookupA (delA l k) k = none :=
  lookup_filter_ne l k

theorem normalizeUrl_ne_empty (u : String) : normalizeUrl u ≠ "" := by
  unfold normalizeUrl
  split
  · intro he
    subst he
    simp [List.isPrefixOf] at *
  · intro he
    cases u with
    | mk d =>
      have : ("http://" ++ String.mk d).data = "".data := by rw [he]
      simp [String.append] at this

/-- A matched chunk advances the supervisor into the detected state. -/
theorem supStep_data_detect (pid : Nat) (out c u : String)
    (hc : detectUrl c = some u) :
    supStep ⟨[(pid, ⟨out, none⟩)], []⟩ (.data pid c)
      = ⟨[(pid, ⟨out ++ c, some (normalizeUrl u)⟩)], [(pid, normalizeUrl u)]⟩ := by
  simp [supStep, lookupA, setA, List.filter, hc]

/-- Chunks without a match only grow the accumulated output. -/
theorem foldl_data_no_match (pid : Nat) (chunks : List String) (out : String)
    (h : ∀ x ∈ chunks, detectUrl x = none) :
    (chunks.map (SupEvent.data pid)).foldl supStep ⟨[(pid, ⟨out, none⟩)], []⟩
      = ⟨[(pid, ⟨chunks.foldl (fun a c => a ++ c) out, none⟩)], []⟩ := by
  induction chunks generalizing out with
  | nil => rfl
  | cons c cs ih =>
    have hc : detectUrl c = none := h c (by simp)
    have hstep : supStep ⟨[(pid, ⟨out, none⟩)], []⟩ (.data pid c)
        = ⟨[(pid, ⟨out ++ c, none⟩)], []⟩ := by
      simp [supStep, lookupA, setA, List.filter, hc]
    rw [List.map_cons, List.foldl_cons, hstep, List.foldl_cons]
    exact ih (out ++ c) (fun x hx => h x (by simp [hx]))

/-- Once the url is recorded, later chunks change neither it nor the
registry. -/
theorem foldl_data_locked (pid : Nat) (chunks : List String) (out u : String)
    (reg : List (Nat × String)) :
    (chunks.map (SupEvent.data pid)).foldl supStep ⟨[(pid, ⟨out, some u⟩)], reg⟩
      = ⟨[(pid, ⟨chunks.foldl (fun a c => a ++ c) out, some u⟩)], reg⟩ := by
  induction chunks generalizing out with
  | nil => rfl
  | cons c cs ih =>
    have hstep : supStep ⟨[(pid, ⟨out, some u⟩)], reg⟩ (.data pid c)
        = ⟨[(pid, ⟨out ++ c, some u⟩)], reg⟩ := by
      simp [supStep, lookupA, setA, List.filter]
    rw [List.map_cons, List.foldl_cons, hstep, List.foldl_cons]
    exact ih (out ++ c)

/-! ## Claims -/

/-- Claim C1: for a spawned process, `GetDetectedEndpoint` is absent
while no output chunk has contained a substring matching the url pattern
(first conjunct); once a first chunk matches, every later call returns
that first match — normalized with an `http://` prepended to bare forms —
no matter what the later chunks contain (second conjunct, `back`
universally quantified). -/
theorem c1_endpoint_first_match (pid : Nat) :
    (∀ chunks : List String, (∀ x ∈ chunks, detectUrl x = none) →
      getEndpoint (supRun (.spawn pid :: chunks.map (SupEvent.data pid))) pid
        = none)
    ∧ (∀ (front back : List String) (c u : String),
        (∀ x ∈ front, detectUrl x = none) → detectUrl c = some u →
        getEndpoint
          (supRun (.spawn pid :: (front ++ c :: back).map (SupEvent.data pid)))
          pid = some (normalizeUrl u)) := by
  have hspawn : supStep supInit (.spawn pid) = ⟨[(pid, ⟨"", none⟩)], []⟩ := rfl
  constructor
  · intro chunks h
    unfold supRun
    rw [List.foldl_cons, hspawn, foldl_data_no_match pid chunks "" h]
    rfl
  · intro front back c u hfront hc
    unfold supRun
    rw [List.foldl_cons, hspawn, List.map_append, List.foldl_append,
      foldl_data_no_match pid front "" hfront, List.map_cons, List.foldl_cons,
      supStep_data_detect pid _ c u hc,
      foldl_data_locked pid back _ (normalizeUrl u) [(pid, normalizeUrl u)]]
    simp [getEndpoint, lookupA, normalizeUrl_ne_empty u]

/-- Witness for C1 at a concrete trace: an endpoint-free chunk leaves the
endpoint absent; a bare `localhost:3000` match is then normalized and
survives a later chunk holding a different url. -/
theorem c1_endpoint_first_match_witness :
    getEndpoint (supRun (.spawn 7 ::
        (["ok"] ++ "on localhost:3000 x" :: ["http://z:1"]).map
          (SupEvent.data 7))) 7 = some (normalizeUrl "localhost:3000")
    ∧ getEndpoint (supRun (.spawn 7 :: (["ok"].map (SupEvent.data 7)))) 7
        = none := by
  constructor
  · exact (c1_endpoint_first_match 7).2 ["ok"] ["http://z:1"]
      "on localhost:3000 x" "localhost:3000" (by decide) (by decide)
  · exact (c1_endpoint_first_match 7).1 ["ok"] (by decide)

/-- Counterexample to claim C2: the clause "`TerminateProcess`
fails with NotFound whenever the id is not currently tracked in the
registry" is false: after a bare spawn the pid has no registry entry
(entries are only created upon url detection, server.js:285), yet
`process.kill` succeeds because the process is alive — the kill handler
(server.js:310-319) never consults the registry. -/
theorem c2_counterexample :
    lookupA (supRun [SupEvent.spawn 1]).registry 1 = none
    ∧ killSucceeds (supRun [SupEvent.spawn 1]) 1 = true := by
  decide

/-- Claim C2 (amended): after the close event of a process its id behaves
exactly as a never-known id — `GetDetectedEndpoint` returns absent and
`TerminateProcess` fails; but the failure condition of
`TerminateProcess` is the process not being alive, not absence from the
registry (an alive process with no detected endpoint is untracked and is
still terminated successfully, see the counterexample). -/
theorem c2_terminated_like_unknown (s : SupState) (pid : Nat) :
    getEndpoint (supStep s (.close pid)) pid = none
    ∧ killSucceeds (supStep s (.close pid)) pid = false
    ∧ getEndpoint supInit pid = none
    ∧ killSucceeds supInit pid = false := by
  refine ⟨?_, ?_, rfl, rfl⟩
  · simp [getEndpoint, supStep, lookup_delA]
  · simp [killSucceeds, supStep, lookup_delA]

/-- Counterexample to claim C3: for the status line `A  f.txt` (first
character `A`) the source classifies the path as untracked and not as
staged (server.js:184-188 has `indexStatus[0] === '?' ||
indexStatus[0] === 'A'` in the untracked branch), contradicting the
claim that `?` alone yields untracked and that `A` yields staged. -/
theorem c3_counterexample :
    ¬ ((statusStep ⟨[], [], []⟩ "A  f.txt").untracked
        = (if charAt "A  f.txt" 0 == some '?' then [linePath "A  f.txt"]
           else [])
      ∧ (statusStep ⟨[], [], []⟩ "A  f.txt").staged
        = (if !(charAt "A  f.txt" 0 == some ' ')
              && !(charAt "A  f.txt" 0 == some '?')
           then [linePath "A  f.txt"] else [])) := by
  decide

/-- Claim C3 (amended): the path of a status line is classified untracked
exactly when the first status character is `?` or `A`, and staged exactly
when the first character is a non-space value other than `?` and `A`;
the line `?? newfile.txt` puts `newfile.txt` in untracked only. -/
theorem c3_untracked_staged_classification (line : String) :
    ((statusStep ⟨[], [], []⟩ line).untracked
      = if charAt line 0 == some '?' || charAt line 0 == some 'A'
        then [linePath line] else [])
    ∧ ((statusStep ⟨[], [], []⟩ line).staged
      = if !(charAt line 0 == some '?' || charAt line 0 == some 'A')
           && !(charAt line 0 == some ' ')
        then [linePath line] else [])
    ∧ statusStep ⟨[], [], []⟩ "?? newfile.txt"
      = ⟨[], [], ["newfile.txt"]⟩ := by
  refine ⟨?_, ?_, by decide⟩ <;>
    · by_cases h0 : (charAt line 0 == some '?' || charAt line 0 == some 'A') = true
      all_goals by_cases hsp : (!(charAt line 0 == some ' ')) = true
      all_goals by_cases h1 : (charAt line 1 == some 'M' || charAt line 1 == some 'D') = true
      all_goals by_cases h2 : (!(charAt line 0 == some ' ') && !(charAt line 0 == some '?')) = true
      all_goals simp [statusStep, h0, hsp, h1, h2, apply_ite StatusSets.untracked,
        apply_ite StatusSets.staged, apply_ite StatusSets.modified]

/-- Claim C6: the path of a status line is classified modified exactly when
the second status character is `M` or `D`, or the first is non-space and
not `?` (entries staged with further unstaged edits); for ` M src/a.js`
the path `src/a.js` is modified and not staged. -/
theorem c6_modified_classification (line : String) :
    ((statusStep ⟨[], [], []⟩ line).modified
      = if (charAt line 1 == some 'M' || charAt line 1 == some 'D')
           || (!(charAt line 0 == some ' ') && !(charAt line 0 == some '?'))
        then [linePath line] else [])
    ∧ (statusStep ⟨[], [], []⟩ " M src/a.js").modified = ["src/a.js"]
    ∧ (statusStep ⟨[], [], []⟩ " M src/a.js").staged = [] := by
  refine ⟨?_, by decide, by decide⟩
  by_cases h0 : (charAt line 0 == some '?' || charAt line 0 == some 'A') = true
  all_goals by_cases hsp : (!(charAt line 0 == some ' ')) = true
  all_goals by_cases h1 : (charAt line 1 == some 'M' || charAt line 1 == some 'D') = true
  all_goals by_cases h2 : (!(charAt line 0 == some ' ') && !(charAt line 0 == some '?')) = true
  all_goals simp [statusStep, h0, hsp, h1, h2, apply_ite StatusSets.untracked,
    apply_ite StatusSets.staged, apply_ite StatusSets.modified]

/-- Removing a pattern that starts the list is dropping its length. -/
theorem replaceFirst_of_isPrefixOf (pat l : List Char)
    (h : pat.isPrefixOf l = true) :
    replaceFirstAux pat l = l.drop pat.length := by
  cases l with
  | nil =>
    cases pat with
    | nil => rfl
    | cons p ps => simp [List.isPrefixOf] at h
  | cons c cs =>
    unfold replaceFirstAux
    simp [h]

/-- Claim C7: when the trimmed HEAD content starts with
`ref: refs/heads/` the parsed branch is the remainder after that marker,
otherwise the trimmed content verbatim (detached HEAD); HEAD content
`ref: refs/heads/feature/x\n` resolves to `feature/x`. -/
theorem c7_head_branch (content : String) :
    (refHeadsMarker.isPrefixOf (jsTrim content).data = true →
      parseHead content = ⟨(jsTrim content).data.drop refHeadsMarker.length⟩)
    ∧ (refHeadsMarker.isPrefixOf (jsTrim content).data = false →
      parseHead content = jsTrim content)
    ∧ parseHead "ref: refs/heads/feature/x\n" = "feature/x" := by
  refine ⟨?_, ?_, by decide⟩
  · intro h
    unfold parseHead
    simp [h, replaceFirst_of_isPrefixOf _ _ h]
  · intro h
    unfold parseHead
    simp [h, strMk_data]

/-- Witness for C7: both branches at concrete HEAD contents. -/
theorem c7_head_branch_witness :
    parseHead "ref: refs/heads/main\n"
      = ⟨(jsTrim "ref: refs/heads/main\n").data.drop refHeadsMarker.length⟩
    ∧ parseHead "a1b2c3\n" = jsTrim "a1b2c3\n" :=
  ⟨(c7_head_branch "ref: refs/heads/main\n").1 (by decide),
   (c7_head_branch "a1b2c3\n").2.1 (by decide)⟩

/-- The or-main fallback never yields the empty string. -/
theorem jsOrMain_ne_empty (b : Option String) : jsOrMain b ≠ "" := by
  cases b with
  | none => decide
  | some s =>
    by_cases h : s = ""
    · subst h
      decide
    · simp [jsOrMain, h]

/-- Normal form of the handler answer when the repository is absent. -/
theorem computeSnapshot_no_repo (env : GitEnv) (h : env.gitDirExists = false) :
    computeSnapshot env = defaultSnapshot := by
  unfold computeSnapshot
  simp [h]

/-- Claim C5: without the repository internal directory the handler
answers the all-default snapshot (branch `""`, no remote, empty sets,
zero divergence, not dirty) for every state of the other effects — in
particular it never errors and never consults the status, fetch or
divergence results. -/
theorem c5_no_repo_default (env : GitEnv) (h : env.gitDirExists = false) :
    computeSnapshot env = defaultSnapshot :=
  computeSnapshot_no_repo env h

/-- Witness for C5: a no-repo environment whose every other effect
fails. -/
theorem c5_no_repo_default_witness :
    computeSnapshot
      { gitDirExists := false, headContent := .error (),
        configContent := .error (), statusOutput := .error (),
        fetchResult := .error (), revListHeadToOrigin := .error (),
        revListOriginToHead := .error () } = defaultSnapshot :=
  c5_no_repo_default _ rfl

/-- Claim C4: when the fetch step fails, both divergence counts are 0
while branch, remote url and the three path sets are still the values
computed from the steps that succeeded; the embedding is a total
function, so no exception propagates. -/
theorem c4_fetch_failure_degrades (env : GitEnv)
    (hrepo : env.gitDirExists = true)
    (hfetch : env.fetchResult = Except.error ()) :
    computeSnapshot env =
      { branch := jsOrMain (branchOf env), ahead := 0, behind := 0,
        modified := (statusSetsOf env).modified,
        staged := (statusSetsOf env).staged,
        untracked := (statusSetsOf env).untracked,
        is_dirty := !(statusSetsOf env).modified.isEmpty
          || !(statusSetsOf env).staged.isEmpty
          || !(statusSetsOf env).untracked.isEmpty,
        remote_url := remoteUrlOf env } := by
  have hd : divergenceOf env = (0, 0) := by
    unfold divergenceOf
    rw [hfetch]
    split <;> rfl
  unfold computeSnapshot
  rw [hrepo, hd]
  rfl

/-- Witness for C4: a repo whose fetch fails keeps its parsed branch,
remote url and status sets. -/
theorem c4_fetch_failure_degrades_witness :
    computeSnapshot
      { gitDirExists := true, headContent := .ok "ref: refs/heads/dev\n",
        configContent := .ok "[remote \"origin\"]\n\turl = https://h/r.git\n",
        statusOutput := .ok "?? a.txt\n", fetchResult := .error (),
        revListHeadToOrigin := .ok "4", revListOriginToHead := .ok "2" }
      = { branch := "dev", ahead := 0, behind := 0, modified := [],
          staged := [], untracked := ["a.txt"], is_dirty := true,
          remote_url := some "https://h/r.git" } := by
  rw [c4_fetch_failure_degrades _ rfl rfl]
  decide

/-- Claim C10: with the repository present the answered branch is never
the empty string (the source applies the or-main fallback,
server.js:229): an unreadable HEAD (`branchOf env = none`) or one whose
content parses to the empty string falls back to `main`; hence
`branch = ""` characterizes the no-repository answer. -/
theorem c10_branch_empty_iff_no_repo (env : GitEnv) :
    ((computeSnapshot env).branch = "" ↔ env.gitDirExists = false)
    ∧ (env.gitDirExists = true →
        (branchOf env = none ∨ branchOf env = some "") →
        (computeSnapshot env).branch = "main") := by
  cases hg : env.gitDirExists with
  | false =>
    refine ⟨?_, ?_⟩
    · unfold computeSnapshot
      simp [hg, defaultSnapshot]
    · intro h
      exact absurd h (by decide)
  | true =>
    have hb : (computeSnapshot env).branch = jsOrMain (branchOf env) := by
      unfold computeSnapshot
      rw [hg]
      rfl
    refine ⟨?_, ?_⟩
    · rw [hb]
      simp [jsOrMain_ne_empty (branchOf env)]
    · intro _ h
      rw [hb]
      rcases h with h | h <;> simp [h, jsOrMain]

/-- A failed `HEAD..origin/branch` query only zeroes the `behind` count
(the other count and the gating are untouched). -/
theorem divergence_rl1_err (env : GitEnv) :
    divergenceOf { env with revListHeadToOrigin := Except.error () }
      = ((divergenceOf env).1, 0) := by
  obtain ⟨g, hc, cc, so, fr, r1, r2⟩ := env
  cases cc with
  | error e => rfl
  | ok c =>
    unfold divergenceOf remoteUrlOf
    by_cases h : jsTruthyStr (parseConfig c) = true
    · simp only [h, if_true]
      cases fr with
      | error e => rfl
      | ok u => rfl
    · simp only [h, if_false]
      rfl

/-- A failed `origin/branch..HEAD` query only zeroes the `ahead` count. -/
theorem divergence_rl2_err (env : GitEnv) :
    divergenceOf { env with revListOriginToHead := Except.error () }
      = (0, (divergenceOf env).2) := by
  obtain ⟨g, hc, cc, so, fr, r1, r2⟩ := env
  cases cc with
  | error e => rfl
  | ok c =>
    unfold divergenceOf remoteUrlOf
    by_cases h : jsTruthyStr (parseConfig c) = true
    · simp only [h, if_true]
      cases fr with
      | error e => rfl
      | ok u => rfl
    · simp only [h, if_false]
      rfl

/-- The environment exhibiting the negative-count possibility of C8. -/
def c8Env : GitEnv :=
  { gitDirExists := true, headContent := .ok "ref: refs/heads/main\n",
    configContent := .ok "[remote \"origin\"]\n\turl = https://h/r.git\n",
    statusOutput := .ok "", fetchResult := .ok (),
    revListHeadToOrigin := .ok "-5\n", revListOriginToHead := .ok "0\n" }

/-- Counterexample to claim C8: the counts are not always non-negative —
the source stores `parseInt(output.trim()) || 0` verbatim
(server.js:211, 220), so a range-query output of `-5` yields
`behind = -5`. -/
theorem c8_counterexample :
    (computeSnapshot c8Env).behind = -5
    ∧ ¬(0 ≤ (computeSnapshot c8Env).behind) := by
  constructor
  · decide
  · decide

/-- Normal form of the handler answer when the repository exists. -/
theorem computeSnapshot_repo (env : GitEnv) (h : env.gitDirExists = true) :
    computeSnapshot env =
      { branch := jsOrMain (branchOf env),
        ahead := (divergenceOf env).1, behind := (divergenceOf env).2,
        modified := (statusSetsOf env).modified,
        staged := (statusSetsOf env).staged,
        untracked := (statusSetsOf env).untracked,
        is_dirty := !(statusSetsOf env).modified.isEmpty
          || !(statusSetsOf env).staged.isEmpty
          || !(statusSetsOf env).untracked.isEmpty,
        remote_url := remoteUrlOf env } := by
  unfold computeSnapshot
  rw [h]
  rfl


/-- Claim C8 (amended): the two counts come from two separate range
queries: a failure of either individual query zeroes that one count and
changes nothing else in the snapshot (first two conjuncts); each count
defaults to 0 when its query fails (covered by the first two conjuncts)
or when its query succeeds but its output has no parsable integer
(third and fourth conjuncts); each count is non-negative whenever the
query output parses to a non-negative integer — as the range-count
command always emits — though a hypothetically negative-signed output
would be stored verbatim (last two conjuncts). -/
theorem c8_count_isolation (env : GitEnv) :
    (computeSnapshot { env with revListHeadToOrigin := Except.error () }
      = { computeSnapshot env with behind := 0 })
    ∧ (computeSnapshot { env with revListOriginToHead := Except.error () }
      = { computeSnapshot env with ahead := 0 })
    ∧ (∀ s, env.revListHeadToOrigin = Except.ok s →
        jsParseInt (jsTrim s) = none → (computeSnapshot env).behind = 0)
    ∧ (∀ s, env.revListOriginToHead = Except.ok s →
        jsParseInt (jsTrim s) = none → (computeSnapshot env).ahead = 0)
    ∧ ((∀ s n, env.revListHeadToOrigin = Except.ok s →
          jsParseInt (jsTrim s) = some n → 0 ≤ n) →
        0 ≤ (computeSnapshot env).behind)
    ∧ ((∀ s n, env.revListOriginToHead = Except.ok s →
          jsParseInt (jsTrim s) = some n → 0 ≤ n) →
        0 ≤ (computeSnapshot env).ahead) := by
  refine ⟨?_, ?_, ?_, ?_, ?_, ?_⟩
  · by_cases hg : env.gitDirExists = true
    · rw [computeSnapshot_repo { env with revListHeadToOrigin := Except.error () } hg,
        computeSnapshot_repo env hg, divergence_rl1_err env]
      rfl
    · have hg2 : env.gitDirExists = false := by simpa using hg
      rw [computeSnapshot_no_repo { env with revListHeadToOrigin := Except.error () } hg2,
        computeSnapshot_no_repo env hg2]
      rfl
  · by_cases hg : env.gitDirExists = true
    · rw [computeSnapshot_repo { env with revListOriginToHead := Except.error () } hg,
        computeSnapshot_repo env hg, divergence_rl2_err env]
      rfl
    · have hg2 : env.gitDirExists = false := by simpa using hg
      rw [computeSnapshot_no_repo { env with revListOriginToHead := Except.error () } hg2,
        computeSnapshot_no_repo env hg2]
      rfl
  · intro s hs hp
    by_cases hg : env.gitDirExists = true
    · rw [computeSnapshot_repo env hg]
      unfold divergenceOf
      by_cases hr : jsTruthyStr (remoteUrlOf env) = true
      · simp only [hr, if_true]
        cases env.fetchResult with
        | error e => rfl
        | ok u =>
          rw [hs]
          simp only []
          unfold jsToInt0
          rw [hp]
      · simp only [hr, if_false]
        rfl
    · have hg2 : env.gitDirExists = false := by simpa using hg
      rw [computeSnapshot_no_repo env hg2]
      rfl
  · intro s hs hp
    by_cases hg : env.gitDirExists = true
    · rw [computeSnapshot_repo env hg]
      unfold divergenceOf
      by_cases hr : jsTruthyStr (remoteUrlOf env) = true
      · simp only [hr, if_true]
        cases env.fetchResult with
        | error e => rfl
        | ok u =>
          rw [hs]
          simp only []
          unfold jsToInt0
          rw [hp]
      · simp only [hr, if_false]
        rfl
    · have hg2 : env.gitDirExists = false := by simpa using hg
      rw [computeSnapshot_no_repo env hg2]
      rfl
  · intro h
    by_cases hg : env.gitDirExists = true
    · rw [computeSnapshot_repo env hg]
      unfold divergenceOf
      by_cases hr : jsTruthyStr (remoteUrlOf env) = true
      · simp only [hr, if_true]
        cases env.fetchResult with
        | error e => exact le_refl 0
        | ok u =>
          cases h1 : env.revListHeadToOrigin with
          | error e => simp
          | ok s =>
            simp only []
            unfold jsToInt0
            cases hp : jsParseInt (jsTrim s) with
            | none => simp
            | some n => simpa using h s n h1 hp
      · simp only [hr, if_false]
        exact le_refl 0
    · have hg2 : env.gitDirExists = false := by simpa using hg
      rw [computeSnapshot_no_repo env hg2]
      exact le_refl 0
  · intro h
    by_cases hg : env.gitDirExists = true
    · rw [computeSnapshot_repo env hg]
      unfold divergenceOf
      by_cases hr : jsTruthyStr (remoteUrlOf env) = true
      · simp only [hr, if_true]
        cases env.fetchResult with
        | error e => exact le_refl 0
        | ok u =>
          cases h1 : env.revListOriginToHead with
          | error e => simp
          | ok s =>
            simp only []
            unfold jsToInt0
            cases hp : jsParseInt (jsTrim s) with
            | none => simp
            | some n => simpa using h s n h1 hp
      · simp only [hr, if_false]
        exact le_refl 0
    · have hg2 : env.gitDirExists = false := by simpa using hg
      rw [computeSnapshot_no_repo env hg2]
      exact le_refl 0

/-- Witness for C8 (amended): a query output of `3` gives a
non-negative count, and an ok-but-unparsable query output of `abc`
leaves that count at 0. -/
theorem c8_count_isolation_witness :
    0 ≤ (computeSnapshot
      { c8Env with revListHeadToOrigin := Except.ok "3" }).behind
    ∧ (computeSnapshot
      { c8Env with revListHeadToOrigin := Except.ok "abc" }).behind = 0 := by
  constructor
  · exact (c8_count_isolation
      { c8Env with revListHeadToOrigin := Except.ok "3" }).2.2.2.2.1
      (by
        intro s n hs hp
        rw [show ({ c8Env with revListHeadToOrigin := Except.ok "3" }
            : GitEnv).revListHeadToOrigin = Except.ok "3" from rfl] at hs
        cases hs
        rw [show jsParseInt (jsTrim "3") = some 3 from rfl] at hp
        cases hp
        decide)
  · exact (c8_count_isolation
      { c8Env with revListHeadToOrigin := Except.ok "abc" }).2.2.1
      "abc" rfl rfl

/-- Witness for C10: a present repository with an unreadable HEAD
answers branch `main`. -/
theorem c10_branch_empty_iff_no_repo_witness :
    (computeSnapshot
      { gitDirExists := true, headContent := .error (),
        configContent := .error (), statusOutput := .error (),
        fetchResult := .error (), revListHeadToOrigin := .error (),
        revListOriginToHead := .error () }).branch = "main" :=
  (c10_branch_empty_iff_no_repo _).2 rfl (Or.inl rfl)

/-- Claim C9: when the spawned command runs to completion (`close`
event), the runner answers a normal 200 result carrying the captured
stdout, stderr and the exit code of the process, whatever it is; a
failure to start the process (`error` event) is answered as a distinct
500 runner failure, never as an ordinary exit-code result (its status
differs from the normal one). -/
theorem c9_runner_failure_distinct (evs : List RunEvent) (code : Int)
    (msg : String) :
    ((runCommandHandler evs (.close code)).status = 200
      ∧ (runCommandHandler evs (.close code)).stdout = collectStdout evs
      ∧ (runCommandHandler evs (.close code)).stderr = collectStderr evs
      ∧ (runCommandHandler evs (.close code)).exit_code = code)
    ∧ (runCommandHandler evs (.errorStart msg)).status = 500
    ∧ (runCommandHandler evs (.errorStart msg)).status
        ≠ (runCommandHandler evs (.close code)).status := by
  refine ⟨⟨rfl, rfl, rfl, rfl⟩, rfl, ?_⟩
  intro he
  exact absurd (show (500 : Nat) = 200 from he) (by decide)

end CCC
